import Mathlib

/-!
Verification of the weather_insights_and_forecast_advisor repository.

Shallow embedding of the repository's tool adapters (src/tools/tools.py),
the public API boundary (src/api_wrapper.py), the sequential pipeline
declarations (src/agents/*/agent.py) and — modelled from the spec, since the
sequential executor itself lives in the external google.adk runtime — the
pipeline execution engine.

Conventions of the embedding:
  - Python dicts of JSON-like data are `List (String × Val)` association
    lists; `dict.get(k)` is `dGet` (None default), `dict.get(k, d)` is `dGetD`.
  - Python floats are modelled as exact rationals `ℚ` (no claim in scope
    depends on floating-point rounding).
  - Each adapter's single external HTTP interaction is an explicit
    `Except String α` parameter: `.error e` stands for any exception raised
    inside the adapter's try-block (network failure, non-2xx status raised by
    raise_for_status, JSON decoding or shape errors), carrying str(e);
    `.ok a` stands for a successfully parsed response of the shape the code
    consumes.  Responses whose shape deviates from that structure raise in
    Python and are therefore covered by the `.error` case.
  - `datetime.now().isoformat()` is an explicit `now : String` parameter.
  - SharedState (`tool_context.state`) is threaded explicitly: each adapter
    maps a state to the returned value and the updated state.
-/

namespace Weather

/-- JSON-like values: the payloads stored in SharedState and returned by tool
adapters (Python scalars, lists and dicts). -/
inductive Val where
  | null
  | vb (b : Bool)
  | vi (n : Int)
  | vf (q : ℚ)
  | vs (s : String)
  | arr (xs : List Val)
  | obj (kvs : List (String × Val))

/-- Association-list lookup, first binding wins (Python dict semantics for the
shapes produced here, which never contain duplicate keys). -/
def objLookup : List (String × Val) → String → Option Val
  | [], _ => none
  | (k', v) :: rest, k => if k' = k then some v else objLookup rest k

/-- Python `d.get(k)`: the stored value, or None when the key is absent. -/
def dGet (kvs : List (String × Val)) (k : String) : Val :=
  (objLookup kvs k).getD .null

/-- Python `d.get(k, default)`. -/
def dGetD (kvs : List (String × Val)) (k : String) (d : Val) : Val :=
  (objLookup kvs k).getD d

/-- Python truthiness of a JSON-like value: None, False, 0, 0.0, "", [] and {}
are falsy; everything else is truthy. -/
def truthyVal : Val → Bool
  | .null => false
  | .vb b => b
  | .vi n => decide (n ≠ 0)
  | .vf q => decide (q ≠ 0)
  | .vs s => !(s == "")
  | .arr xs => !xs.isEmpty
  | .obj kvs => !kvs.isEmpty

/-- Python `x or y` on JSON-like values (used for
`props.get("updated") or props.get("updateTime")`). -/
def valOr (x y : Val) : Val :=
  if truthyVal x then x else y

/-- Python `v == s` where `s` is a str: true only when `v` is an equal str
(comparison of a str with a value of another type is False). -/
def isStrVal (v : Val) (s : String) : Bool :=
  match v with
  | .vs t => t == s
  | _ => false

/-- Python truthiness of an optional float argument: None and 0.0 are falsy. -/
def truthyOptQ : Option ℚ → Bool
  | none => false
  | some q => decide (q ≠ 0)

/-- Python truthiness of an optional string argument: None and "" are falsy. -/
def truthyOptS : Option String → Bool
  | none => false
  | some s => !(s == "")

/-- SharedState: the per-run mutable mapping from string keys to values
(`tool_context.state`). -/
def SharedState : Type := List (String × Val)

/-- Read a key of SharedState. -/
def stateGet (st : SharedState) (k : String) : Option Val :=
  objLookup st k

/-- `state[k] = v`: replace the binding in place when the key is present,
append it otherwise. -/
def stateSet : SharedState → String → Val → SharedState
  | [], k, v => [(k, v)]
  | (k', v') :: rest, k, v =>
      if k' = k then (k, v) :: rest else (k', v') :: stateSet rest k v

/-- The keys currently bound in SharedState, in insertion order. -/
def stateKeys (st : SharedState) : List String :=
  st.map Prod.fst

/-- An error return dict `{"status": "error", "message": msg}`, the tagged
error shape every adapter in src/tools/tools.py produces. -/
def errRet (msg : String) : Val :=
  .obj [("status", .vs "error"), ("message", .vs msg)]

/-- The "status" field of a returned dict. -/
def retStatus (v : Val) : Val :=
  match v with
  | .obj kvs => dGet kvs "status"
  | _ => .null

/-- The "message" field of a returned dict, as a string. -/
def retMessage (v : Val) : String :=
  match v with
  | .obj kvs =>
      match objLookup kvs "message" with
      | some (.vs s) => s
      | _ => ""
  | _ => ""

/-- NWS API base URL (src/tools/tools.py line 34). -/
def NWS_API_BASE : String := "https://api.weather.gov"

/-- URL selection of get_nws_alerts (src/tools/tools.py lines 152-159):
`if latitude and longitude:` point query; `elif state:` area query; else the
nationwide active-alerts query.  Numeric rendering inside the URL is
abstracted as `toString`. -/
def alertsUrl (state : Option String) (latitude longitude : Option ℚ) : String :=
  if truthyOptQ latitude && truthyOptQ longitude then
    NWS_API_BASE ++ "/alerts/active?point=" ++ toString (latitude.getD 0) ++ ","
      ++ toString (longitude.getD 0)
  else if truthyOptS state then
    NWS_API_BASE ++ "/alerts/active?area=" ++ state.getD ""
  else
    NWS_API_BASE ++ "/alerts/active"

/-- One feature of the NWS alerts response; the code only reads
`feature.get("properties", {})`. -/
structure AlertFeature where
  properties : Option (List (String × Val))

/-- Parsed NWS alerts response: `alerts_data.get("features", [])`. -/
structure AlertsResponse where
  features : List AlertFeature

/-- The severity filter of get_nws_alerts (lines 171-173):
`if severity and props.get("severity") != severity: continue` — a feature is
kept when no truthy filter is given, or when its "severity" property is a
string equal to the filter. -/
def severityKeep (severity : Option String) (props : List (String × Val)) : Bool :=
  if truthyOptS severity then isStrVal (dGet props "severity") (severity.getD "")
  else true

/-- The alert dict appended for one kept feature (lines 175-187). -/
def mkAlertItem (props : List (String × Val)) : Val :=
  .obj [("event", dGet props "event"),
        ("severity", dGet props "severity"),
        ("urgency", dGet props "urgency"),
        ("certainty", dGet props "certainty"),
        ("headline", dGet props "headline"),
        ("description", dGet props "description"),
        ("instruction", dGet props "instruction"),
        ("onset", dGet props "onset"),
        ("expires", dGet props "expires"),
        ("affected_zones", dGetD props "affectedZones" (.arr [])),
        ("sender_name", dGet props "senderName")]

/-- get_nws_alerts (src/tools/tools.py lines 134-210).  The provider is a
function from the requested URL to the outcome of
`requests.get(alerts_url, ...)` followed by `raise_for_status` and JSON
parsing. -/
def get_nws_alerts (st : SharedState) (state : Option String)
    (latitude longitude : Option ℚ) (severity : Option String)
    (provider : String → Except String AlertsResponse) (now : String) :
    Val × SharedState :=
  match provider (alertsUrl state latitude longitude) with
  | .error e => (errRet ("Failed to get alerts: " ++ e), st)
  | .ok resp =>
      let alerts : List Val :=
        (resp.features.filter
          (fun f => severityKeep severity (f.properties.getD []))).map
          (fun f => mkAlertItem (f.properties.getD []))
      let st' := stateSet st "alerts"
        (.obj [("alerts", .arr alerts),
               ("count", .vi alerts.length),
               ("timestamp", .vs now)])
      (.obj [("status", .vs "success"),
             ("alerts", .arr alerts),
             ("count", .vi alerts.length),
             ("timestamp", .vs now)], st')

/-- Coordinate rendering used in URLs and payloads:
the Python f-string `f"\x7blatitude\x7d,\x7blongitude\x7d"`. -/
def coordStr (latitude longitude : ℚ) : String :=
  toString latitude ++ "," ++ toString longitude

/-- Parsed NWS points response: the two forecast URLs under
`points_data["properties"]`; `none` models an absent key (KeyError). -/
structure NwsPointsProps where
  forecast : Option String
  forecastHourly : Option String

/-- Parsed NWS forecast response: `forecast_data["properties"]["periods"]`
(a list of period dicts) and the `.get("updated")` / `.get("updateTime")`
values (`Val.null` when absent, mirroring dict.get). -/
structure NwsForecastProps where
  periods : List (List (String × Val))
  updated : Val
  updateTime : Val

/-- `period_data.get("probabilityOfPrecipitation", \x7b\x7d).get("value")`.
A stored non-dict value would raise in Python and is covered by the
adapter's `.error` outcome. -/
def precipValue (v : Val) : Val :=
  match v with
  | .obj kvs => dGet kvs "value"
  | _ => .null

/-- The period dict appended per forecast period (lines 78-88). -/
def mkPeriod (pd : List (String × Val)) : Val :=
  .obj [("name", dGet pd "name"),
        ("temperature", dGet pd "temperature"),
        ("temperature_unit", dGet pd "temperatureUnit"),
        ("wind_speed", dGet pd "windSpeed"),
        ("wind_direction", dGet pd "windDirection"),
        ("short_forecast", dGet pd "shortForecast"),
        ("detailed_forecast", dGet pd "detailedForecast"),
        ("precipitation_probability",
          precipValue (dGetD pd "probabilityOfPrecipitation" (.obj [])))]

/-- get_nws_forecast (src/tools/tools.py lines 42-114).  Two provider
interactions: the points request and the forecast request, each a function
of its URL.  The state write at line 93 happens on the success path only;
nothing after it in the source can raise. -/
def get_nws_forecast (st : SharedState) (latitude longitude : ℚ)
    (period : String)
    (pointsProvider : String → Except String NwsPointsProps)
    (forecastProvider : String → Except String NwsForecastProps)
    (now : String) : Val × SharedState :=
  match pointsProvider (NWS_API_BASE ++ "/points/" ++ coordStr latitude longitude) with
  | .error e => (errRet ("Failed to get forecast: " ++ e), st)
  | .ok pts =>
      match (if period == "hourly" then (pts.forecastHourly, "forecastHourly")
             else (pts.forecast, "forecast")) with
      | (none, key) =>
          -- KeyError on the absent properties key, caught by the handler
          (errRet ("Failed to get forecast: '" ++ key ++ "'"), st)
      | (some url, _) =>
          match forecastProvider url with
          | .error e => (errRet ("Failed to get forecast: " ++ e), st)
          | .ok fc =>
              let periods : List Val := fc.periods.map mkPeriod
              let update_time := valOr fc.updated fc.updateTime
              let st' := stateSet st "forecast_data"
                (.obj [("location", .vs (coordStr latitude longitude)),
                       ("periods", .arr periods),
                       ("updated", update_time),
                       ("timestamp", .vs now)])
              (.obj [("status", .vs "success"),
                     ("location", .vs (coordStr latitude longitude)),
                     ("periods", .arr periods),
                     ("updated", update_time)], st')

/-- One entry of `data["results"]` of the Google geocoding response; the
fields the code indexes (required keys — an absence raises and is covered by
the `.error` outcome), plus the `.get("types", [])` value. -/
structure GeoResult where
  formatted_address : Val
  lat : Val
  lng : Val
  place_id : Val
  types : Option Val

/-- Parsed Google geocoding response: `data["status"]` and `data["results"]`. -/
structure GeoResponse where
  status : String
  results : List GeoResult

/-- geocode_address (src/tools/tools.py lines 321-385).  `apiKey` is the
GOOGLE_MAPS_API_KEY environment value (`none`/empty is falsy); `provider` is
the outcome of the geocoding request. -/
def geocode_address (st : SharedState) (address : String)
    (apiKey : Option String) (provider : Except String GeoResponse) :
    Val × SharedState :=
  if !truthyOptS apiKey then
    (errRet "GOOGLE_MAPS_API_KEY not configured", st)
  else
    match provider with
    | .error e => (errRet ("Failed to geocode address: " ++ e), st)
    | .ok data =>
        if data.status ≠ "OK" then
          (errRet ("Geocoding failed: " ++ data.status), st)
        else
          match data.results with
          | [] =>
              -- IndexError from data["results"][0], caught by the handler
              (errRet "Failed to geocode address: list index out of range", st)
          | r :: _ =>
              let geocode_result : Val :=
                .obj [("address", .vs address),
                      ("formatted_address", r.formatted_address),
                      ("latitude", r.lat),
                      ("longitude", r.lng),
                      ("place_id", r.place_id),
                      ("types", r.types.getD (.arr []))]
              (.obj [("status", .vs "success"),
                     ("result", geocode_result)],
               stateSet st "geocode_result" geocode_result)

/-- Python str() rendering of a scalar value inside an f-string.  Rendering
of nested containers is abstracted (no claim inspects a URL built from a
non-scalar marker coordinate). -/
def pyRender : Val → String
  | .null => "None"
  | .vb b => if b then "True" else "False"
  | .vi n => toString n
  | .vf q => toString q
  | .vs s => s
  | .arr _ => "[...]"
  | .obj _ => "\x7b...\x7d"

/-- The search-mode map URL (lines 608, 615, 618). -/
def mapSearchUrl (dlat dlng : Val) (zoom : Int) : String :=
  "https://www.google.com/maps/search/?api=1&query=" ++ pyRender dlat ++ ","
    ++ pyRender dlng ++ "&zoom=" ++ toString zoom ++ "&map_action=map"

/-- The directions-mode map URL for several markers (line 613). -/
def mapDirUrl (dest waypoints : String) : String :=
  "https://www.google.com/maps/dir/?api=1&destination=" ++ dest
    ++ "&waypoints=" ++ waypoints ++ "&map_action=map"

/-- The `marker_params` list (lines 598-604): "lat,lng" for each marker whose
'lat' and 'lng' are truthy. -/
def markerParams (ms : List (List (String × Val))) : List String :=
  ms.filterMap fun mk =>
    let lat := dGet mk "lat"
    let lng := dGet mk "lng"
    if truthyVal lat && truthyVal lng then
      some (pyRender lat ++ "," ++ pyRender lng)
    else none

/-- The map URL chosen by generate_map (lines 591-618). -/
def mapUrlOf (center_lat center_lng : ℚ) (zoom : Int)
    (markers : Option (List (List (String × Val)))) : String :=
  match markers with
  | some (m :: rest) =>
      let ms := m :: rest
      let dest_lat := dGetD m "lat" (.vf center_lat)
      let dest_lng := dGetD m "lng" (.vf center_lng)
      (match markerParams ms with
       | [] => mapSearchUrl dest_lat dest_lng zoom
       | [_] => mapSearchUrl dest_lat dest_lng zoom
       | p :: ps =>
           let waypoints := String.intercalate "|" ps
           if waypoints == "" then mapSearchUrl dest_lat dest_lng zoom
           else mapDirUrl p waypoints)
  | _ => mapSearchUrl (.vf center_lat) (.vf center_lng) zoom

/-- The numbered marker summary lines (lines 629-635). -/
def markerSummary (ms : List (List (String × Val))) : List Val :=
  ms.enum.map fun iv =>
    let i := iv.1 + 1
    let mk := iv.2
    .vs (toString i ++ ". "
      ++ pyRender (dGetD mk "title" (.vs ("Location " ++ toString i)))
      ++ " (" ++ pyRender (dGet mk "lat") ++ ", " ++ pyRender (dGet mk "lng") ++ ")")

/-- generate_map (src/tools/tools.py lines 567-654).  Purely local: no
external call, so the except-handler is unreachable and the embedding is a
total function.  `markers` is the optional list of marker dicts. -/
def generate_map (st : SharedState) (center_lat center_lng : ℚ) (zoom : Int)
    (markers : Option (List (List (String × Val)))) (title : String) :
    Val × SharedState :=
  let ms : List (List (String × Val)) := match markers with
    | some l => l
    | none => []
  let map_url := mapUrlOf center_lat center_lng zoom markers
  let st' := stateSet st "map_data"
    (.obj [("center", .obj [("lat", .vf center_lat), ("lng", .vf center_lng)]),
           ("zoom", .vi zoom),
           ("markers", .arr (ms.map .obj)),
           ("map_url", .vs map_url)])
  (.obj [("status", .vs "success"),
         ("message", .vs ("Generated map with " ++ toString ms.length ++ " marker(s)")),
         ("map_url", .vs map_url),
         ("center", .obj [("lat", .vf center_lat), ("lng", .vf center_lng)]),
         ("zoom", .vi zoom),
         ("markers", .arr (markerSummary ms)),
         ("instruction", .vs "Open the map_url in a browser to view the interactive map with all markers")],
   st')

/-- One part of an ADK event's content (src/api_wrapper.py lines 47-51):
`part.text` is `none` when absent, and empty text is falsy. -/
structure EvPart where
  text : Option String

/-- The content of an ADK event: its parts. -/
structure EvContent where
  parts : List EvPart

/-- An ADK event as consumed by query_agent: `event.content` may be None. -/
structure Event where
  content : Option EvContent

/-- The value produced by `runner.run_async`: the event list and session id. -/
structure RunResult where
  events : List Event
  session_id : String

/-- The request body of POST /query (src/api_wrapper.py lines 26-28). -/
structure QueryRequest where
  query : String
  user_id : String

/-- The response body of POST /query (src/api_wrapper.py lines 30-32):
plain text plus a session id — it carries no status/kind/message tagging. -/
structure QueryResponse where
  response : String
  session_id : String

/-- The text-extraction loop of query_agent (lines 46-51): concatenate the
truthy text of every part of every event with truthy content. -/
def extractText (events : List Event) : String :=
  events.foldl
    (fun acc ev =>
      match ev.content with
      | some c =>
          c.parts.foldl
            (fun a p =>
              match p.text with
              | some t => if t == "" then a else a ++ t
              | none => a) acc
      | none => acc) ""

/-- query_agent (src/api_wrapper.py lines 34-56), the public run_pipeline
boundary.  `runOutcome` is the outcome of `await runner.run_async(...)`:
`.error e` models an exception raised by the runner.  The handler body
contains no try/except, so a raised exception propagates out of the
endpoint (to the surrounding FastAPI framework) instead of being converted
into a tagged result. -/
def query_agent (req : QueryRequest)
    (runOutcome : Except String RunResult) : Except String QueryResponse :=
  match runOutcome with
  | .error e => .error e
  | .ok result => .ok ⟨extractText result.events, result.session_id⟩

/-!
The pipeline execution engine.  The sequential executor that runs a
SequentialAgent's sub_agents lives in the external google.adk runtime; only
the SequentialAgent/LlmAgent declarations are code of this repository.  The
executor, the stage contract and the schema validator below are therefore
modelled from the spec (§4.3 stage execution, §4.4 schema validator,
§4.5 sequential executor, §7 error taxonomy), and instantiated with the
stage declarations embedded from src/agents/*/agent.py.
-/

mutual

/-- Modelled from the spec: a semantic field type of a structured-output
schema (§3 StructuredResult, §4.4) — string, integer, float, boolean,
list-of-T, nested-object, plus the unconstrained type for Dict[str, Any]
fields of the source's Pydantic schemas. -/
inductive Ty where
  | strT
  | intT
  | numT
  | boolT
  | anyT
  | listT (elem : Ty)
  | mapT (elem : Ty)
  | objT (fields : TFields)

/-- Modelled from the spec: the named fields of a nested-object schema, each
marked required or optional. -/
inductive TFields where
  | nil
  | cons (name : String) (required : Bool) (t : Ty) (rest : TFields)

end

mutual

/-- Modelled from the spec (§4.4): structural validation of a candidate value
against a semantic type.  Numeric fields accept integer and floating-point
representations unless integer-only; list fields validate elements
independently and an empty list conforms; strings accept any string;
unknown extra fields of an object are not an error. -/
def tyMatches : Ty → Val → Bool
  | .strT, .vs _ => true
  | .intT, .vi _ => true
  | .numT, .vi _ => true
  | .numT, .vf _ => true
  | .boolT, .vb _ => true
  | .anyT, _ => true
  | .listT t, .arr xs => xs.all (fun v => tyMatches t v)
  | .mapT t, .obj kvs => kvs.all (fun kv => tyMatches t kv.2)
  | .objT fs, .obj kvs => fieldsMatch fs kvs
  | _, _ => false

/-- Modelled from the spec (§4.4): every required field must be present with
a conforming value; an absent optional field is accepted. -/
def fieldsMatch : TFields → List (String × Val) → Bool
  | .nil, _ => true
  | .cons name required t rest, kvs =>
      (match objLookup kvs name with
       | some v => tyMatches t v
       | none => !required) && fieldsMatch rest kvs

end

/-- A stage declaration: the (immutable) descriptor part of an LlmAgent that
the executor consumes — its name, optional output_key and optional
output_schema.  The instruction text and bound tools are opaque to the
executor (spec §3 Stage Definition). -/
structure StageDef where
  name : String
  outputKey : Option String
  outputSchema : Option Ty

/-- Modelled from the spec (§4.3 step 4): a stage with no declared
output_schema accepts any candidate; otherwise the candidate must validate. -/
def stageSchemaOk (s : StageDef) (c : Val) : Bool :=
  match s.outputSchema with
  | none => true
  | some sch => tyMatches sch c

/-- A stage task: the opaque text-classifier/generator capability of spec §6,
mapping the visible SharedState to (tool-updated state, candidate output);
`none` models a stage-level failure at step 2 (e.g. an unrecoverable
ToolError inside the stage). -/
def StageTask : Type := StageDef → SharedState → SharedState × Option Val

/-- Modelled from the spec (§4.3, §4.5, §7): run the stages in declared
order, recording the invoked stage names; convert a step-2 failure into a
ToolError and a step-4 validation failure into a SchemaViolationError, abort
the remaining stages on either, and on success of a stage write its
candidate under the declared output_key (when one is declared) before
proceeding. -/
def runStagesAux (task : StageTask) :
    List StageDef → SharedState → List String × Except (String × String) SharedState
  | [], st => ([], .ok st)
  | s :: rest, st =>
      match task s st with
      | (st1, none) =>
          ([s.name], .error ("ToolError", "stage " ++ s.name ++ " failed"))
      | (st1, some c) =>
          if stageSchemaOk s c then
            let st2 := match s.outputKey with
              | some k => stateSet st1 k c
              | none => st1
            let next := runStagesAux task rest st2
            (s.name :: next.1, next.2)
          else
            ([s.name],
             .error ("SchemaViolationError",
                     "stage " ++ s.name ++ " output failed schema validation"))

/-- Modelled from the spec (§6): the tagged result of run_pipeline. -/
inductive PipeResult where
  | success (data : Option Val) (finalState : SharedState)
  | error (kind : String) (message : String)

/-- Modelled from the spec (§4.5): allocate a fresh SharedState seeded with
the request under the conventional "input" key, run the stages in order, and
on success return the value stored under the final stage's output_key
together with the full final state. -/
def run_pipeline (task : StageTask) (stages : List StageDef) (input : Val) :
    List String × PipeResult :=
  let st0 : SharedState := stateSet [] "input" input
  match runStagesAux task stages st0 with
  | (tr, .ok st) =>
      (tr, .success ((stages.getLast?.bind StageDef.outputKey).bind (stateGet st))
             st)
  | (tr, .error ek) => (tr, .error ek.1 ek.2)

/-- Build a TFields spine from a list of (name, required, type) triples. -/
def tfs : List (String × Bool × Ty) → TFields
  | [] => .nil
  | (n, r, t) :: rest => .cons n r t (tfs rest)

/-- DailyForecast (src/agents/forecast_agent/agent.py lines 7-15). -/
def DailyForecastTy : Ty :=
  .objT (tfs [("date", true, .strT), ("day_name", true, .strT),
              ("high_temp", true, .intT), ("low_temp", true, .intT),
              ("conditions", true, .strT), ("wind", true, .strT),
              ("precipitation_chance", true, .intT)])

/-- ForecastSummary (src/agents/forecast_agent/agent.py lines 18-24);
`coordinates : Dict[str, float]` is a string-keyed map of numbers. -/
def ForecastSummaryTy : Ty :=
  .objT (tfs [("location", true, .strT), ("coordinates", true, .mapT .numT),
              ("current_conditions", true, .strT),
              ("daily_forecasts", true, .listT DailyForecastTy),
              ("insights", true, .strT)])

/-- AlertDetail (src/agents/alerts_snapshot_agent/agent.py lines 7-15). -/
def AlertDetailTy : Ty :=
  .objT (tfs [("event", true, .strT), ("severity", true, .strT),
              ("headline", true, .strT), ("description", true, .strT),
              ("affected_zones", true, .listT .strT),
              ("start_time", true, .strT), ("end_time", true, .strT)])

/-- AlertsSummary (src/agents/alerts_snapshot_agent/agent.py lines 18-25);
the Optional map_data field is modelled as an optional field of
unconstrained-map type. -/
def AlertsSummaryTy : Ty :=
  .objT (tfs [("alerts", true, .listT AlertDetailTy),
              ("total_count", true, .intT), ("severe_count", true, .intT),
              ("locations", true, .listT .strT), ("insights", true, .strT),
              ("map_data", false, .mapT .anyT)])

/-- RiskAnalysisSummary (src/agents/risk_analysis_agent/agent.py
lines 12-21). -/
def RiskAnalysisSummaryTy : Ty :=
  .objT (tfs [("alert_summary", true, .strT),
              ("population_at_risk", true, .intT),
              ("risk_score", true, .numT), ("risk_level", true, .strT),
              ("vulnerable_areas", true, .listT .strT),
              ("recommendations", true, .listT .strT),
              ("evacuation_needed", true, .boolT),
              ("insights", true, .strT)])

/-- HurricaneData (src/agents/hurricane_simulation_agent/agent.py
lines 25-32). -/
def HurricaneDataTy : Ty :=
  .objT (tfs [("category", true, .intT), ("states", true, .listT .strT),
              ("min_lat", true, .numT), ("max_lat", true, .numT),
              ("min_lng", true, .numT), ("max_lng", true, .numT)])

/-- EvacuationPriority (src/agents/hurricane_simulation_agent/agent.py
lines 34-39). -/
def EvacuationPriorityTy : Ty :=
  .objT (tfs [("latitude", true, .numT), ("longitude", true, .numT),
              ("risk_score", true, .numT), ("details", true, .mapT .anyT)])

/-- EvacuationPlan (src/agents/hurricane_simulation_agent/agent.py
lines 41-48). -/
def EvacuationPlanTy : Ty :=
  .objT (tfs [("prioritized_locations", true, .listT EvacuationPriorityTy),
              ("affected_states", true, .listT .strT),
              ("hurricane_category", true, .intT),
              ("total_high_risk_locations", true, .intT),
              ("highest_risk_score", true, .numT),
              ("insights", true, .mapT .anyT)])

/-- Stage declaration of geocoding_agent
(src/agents/forecast_agent/agent.py lines 28-53). -/
def geocoding_agent : StageDef := ⟨"geocoding_agent", some "geocode_result", none⟩

/-- Stage declaration of forecast_retriever
(src/agents/forecast_agent/agent.py lines 57-84). -/
def forecast_retriever : StageDef :=
  ⟨"forecast_retriever", some "forecast_data", none⟩

/-- Stage declaration of forecast_formatter
(src/agents/forecast_agent/agent.py lines 88-119). -/
def forecast_formatter : StageDef :=
  ⟨"forecast_formatter", some "forecast_summary", some ForecastSummaryTy⟩

/-- forecast_workflow = SequentialAgent(sub_agents=[geocoding_agent,
forecast_retriever, forecast_formatter])
(src/agents/forecast_agent/agent.py lines 123-131). -/
def forecast_workflow : List StageDef :=
  [geocoding_agent, forecast_retriever, forecast_formatter]

/-- Stage declaration of alerts_retriever
(src/agents/alerts_snapshot_agent/agent.py lines 29-65). -/
def retriever_agent : StageDef := ⟨"alerts_retriever", some "alerts_data", none⟩

/-- Stage declaration of alerts_formatter
(src/agents/alerts_snapshot_agent/agent.py lines 69-102). -/
def alerts_formatter : StageDef :=
  ⟨"alerts_formatter", some "alerts_summary", some AlertsSummaryTy⟩

/-- Stage declaration of map_generator
(src/agents/alerts_snapshot_agent/agent.py lines 106-131). -/
def map_generator : StageDef := ⟨"map_generator", some "map_data", none⟩

/-- Stage declaration of final_synthesizer
(src/agents/alerts_snapshot_agent/agent.py lines 134-145). -/
def final_synthesizer : StageDef :=
  ⟨"final_synthesizer", some "final_summary", some AlertsSummaryTy⟩

/-- alerts_snapshot_workflow = SequentialAgent(sub_agents=[retriever_agent,
alerts_formatter, map_generator, final_synthesizer])
(src/agents/alerts_snapshot_agent/agent.py lines 149-158). -/
def alerts_snapshot_workflow : List StageDef :=
  [retriever_agent, alerts_formatter, map_generator, final_synthesizer]

/-- Stage declaration of alert_retriever
(src/agents/risk_analysis_agent/agent.py lines 25-49). -/
def alert_retriever : StageDef := ⟨"alert_retriever", some "alert_data", none⟩

/-- Stage declaration of census_data_retriever
(src/agents/risk_analysis_agent/agent.py lines 53-81). -/
def census_data_retriever : StageDef :=
  ⟨"census_data_retriever", some "census_data", none⟩

/-- Stage declaration of risk_calculator
(src/agents/risk_analysis_agent/agent.py lines 85-125). -/
def risk_calculator : StageDef := ⟨"risk_calculator", some "risk_scores", none⟩

/-- Stage declaration of recommendations_generator
(src/agents/risk_analysis_agent/agent.py lines 129-159). -/
def recommendations_generator : StageDef :=
  ⟨"recommendations_generator", some "risk_analysis_summary",
   some RiskAnalysisSummaryTy⟩

/-- risk_analysis_workflow = SequentialAgent(sub_agents=[alert_retriever,
census_data_retriever, risk_calculator, recommendations_generator])
(src/agents/risk_analysis_agent/agent.py lines 163-172). -/
def risk_analysis_workflow : List StageDef :=
  [alert_retriever, census_data_retriever, risk_calculator,
   recommendations_generator]

/-- Stage declaration of hurricane_image_analysis_agent
(src/agents/hurricane_simulation_agent/agent.py lines 52-69). -/
def hurricane_image_analysis_agent : StageDef :=
  ⟨"hurricane_image_analysis_agent", some "hurricane_data",
   some HurricaneDataTy⟩

/-- Stage declaration of evacuation_coordinator_agent
(src/agents/hurricane_simulation_agent/agent.py lines 72-103): it declares
output_schema=EvacuationPlan but — unlike every other stage — NO output_key. -/
def evacuation_coordinator_agent : StageDef :=
  ⟨"evacuation_coordinator_agent", none, some EvacuationPlanTy⟩

/-- HurricaneSimulationAgent = SequentialAgent(sub_agents=
[hurricane_image_analysis_agent, evacuation_coordinator_agent])
(src/agents/hurricane_simulation_agent/agent.py lines 106-113). -/
def HurricaneSimulationAgent : List StageDef :=
  [hurricane_image_analysis_agent, evacuation_coordinator_agent]

/-- A named field of a returned dict (`r["center"]`, `r["zoom"]`, ...). -/
def retField (v : Val) (k : String) : Val :=
  match v with
  | .obj kvs => dGet kvs k
  | _ => .null

/-- A marker dict with the given coordinates, as the map-generation stage
passes them to generate_map. -/
def c6marker (la ln : ℚ) : List (String × Val) :=
  [("lat", .vf la), ("lng", .vf ln)]

/-- Three concrete marker coordinates for the map-generation scenario. -/
def markers3 : List (List (String × Val)) :=
  [c6marker 1 10, c6marker 2 20, c6marker 3 30]

/-- A concrete Google Maps API key value, standing for the configured
GOOGLE_MAPS_API_KEY. -/
def leakedApiKey : String := "AIzaSECRET"

/-- The str() of the HTTPError that `raise_for_status()` (line 348) raises on
a 403 from the geocoding endpoint: the requests library includes the full
request URL in the exception text, and geocode_address passes the API key as
a query parameter (lines 342-346), so the URL — and hence str(e) — carries
the key. -/
def leakedExn : String :=
  "403 Client Error: Forbidden for url: https://maps.googleapis.com/maps/api/geocode/json?address=Miami&key=AIzaSECRET"

/-- A stage task returning the same candidate output in every stage, with no
tool side-writes. -/
def constTask (v : Val) : StageTask := fun _ st => (st, some v)

/-- A HurricaneData value conforming to the first hurricane stage's schema. -/
def hurricaneSample : Val :=
  .obj [("category", .vi 3), ("states", .arr [.vs "FL"]),
        ("min_lat", .vf 24), ("max_lat", .vf 31),
        ("min_lng", .vf (-88)), ("max_lng", .vf (-79))]

/-- An EvacuationPlan value conforming to the evacuation coordinator's
schema. -/
def evacuationPlanSample : Val :=
  .obj [("prioritized_locations", .arr []),
        ("affected_states", .arr [.vs "FL"]),
        ("hurricane_category", .vi 3),
        ("total_high_risk_locations", .vi 0),
        ("highest_risk_score", .vf 0),
        ("insights", .obj [])]

/-- A task for the hurricane pipeline producing schema-conformant candidates
for both stages. -/
def hurricaneTask : StageTask := fun s st =>
  (st, if s.name == "hurricane_image_analysis_agent" then some hurricaneSample
       else some evacuationPlanSample)

/-! Helper lemmas shared by the claim theorems. -/

/-- Reading back the key just written. -/
theorem stateGet_stateSet (st : SharedState) (k : String) (v : Val) :
    stateGet (stateSet st k v) k = some v := by
  induction st with
  | nil => simp [stateGet, stateSet, objLookup]
  | cons kv rest ih =>
      by_cases h : kv.1 = k
      · simp [stateGet, stateSet, objLookup, h]
      · simpa [stateGet, stateSet, objLookup, h] using ih

/-- Overwriting a key that was just written preserves the key list. -/
theorem stateKeys_stateSet_twice (st : SharedState) (k : String) (v v' : Val) :
    stateKeys (stateSet (stateSet st k v) k v') = stateKeys (stateSet st k v) := by
  induction st with
  | nil => simp [stateSet, stateKeys]
  | cons kv rest ih =>
      by_cases h : kv.1 = k
      · simp [stateSet, stateKeys, h]
      · simpa [stateSet, stateKeys, h] using ih

/-- Claim C1, counterexample: at the concrete request "What is the weather in
Miami?" and a runner failure "boom", the public query_agent boundary
propagates the raised exception unchanged instead of converting it into a
tagged result — the caller does not receive a well-formed PipelineResult. -/
theorem C1_counterexample :
    query_agent ⟨"What is the weather in Miami?", "user_001"⟩
        (Except.error "boom")
      = Except.error "boom" := rfl

/-- Claim C1 (amended): query_agent converts nothing — on runner success it
returns a QueryResponse whose text is the concatenation of the events' truthy
text parts, and on a runner exception it propagates the exception to the
enclosing web framework; QueryResponse itself carries no status/kind/message
error tagging. -/
theorem C1_amended (req : QueryRequest) :
    (∀ r : RunResult,
       query_agent req (Except.ok r)
         = Except.ok ⟨extractText r.events, r.session_id⟩)
  ∧ (∀ e : String, query_agent req (Except.error e) = Except.error e) :=
  ⟨fun _ => rfl, fun _ => rfl⟩

/-- Claim C5, counterexample: querying alerts for the non-existent state code
"XX" where the provider answers successfully with an empty feature list makes
get_nws_alerts return a successful result with zero alerts — an empty
successful result, not a ToolError. -/
theorem C5_counterexample :
    get_nws_alerts [] (some "XX") none none none
        (fun _ => Except.ok ⟨[]⟩) "t"
      = (.obj [("status", .vs "success"), ("alerts", .arr []),
               ("count", .vi 0), ("timestamp", .vs "t")],
         [("alerts",
           .obj [("alerts", .arr []), ("count", .vi 0),
                 ("timestamp", .vs "t")])]) := rfl

/-- Claim C5 (amended): get_nws_alerts returns a tagged error whose message
references the retrieval failure ("Failed to get alerts: ...") exactly when
the provider request itself fails, leaving SharedState unchanged; when the
provider succeeds with zero alerts it returns a successful result with an
empty alert list and count 0 rather than an error. -/
theorem C5_amended (st : SharedState) (state : Option String)
    (latitude longitude : Option ℚ) (severity : Option String) (now : String) :
    (∀ e : String,
       get_nws_alerts st state latitude longitude severity
           (fun _ => Except.error e) now
         = (errRet ("Failed to get alerts: " ++ e), st))
  ∧ get_nws_alerts st state latitude longitude severity
        (fun _ => Except.ok ⟨[]⟩) now
      = (.obj [("status", .vs "success"), ("alerts", .arr []),
               ("count", .vi 0), ("timestamp", .vs now)],
         stateSet st "alerts"
           (.obj [("alerts", .arr []), ("count", .vi 0),
                  ("timestamp", .vs now)])) :=
  ⟨fun _ => rfl, rfl⟩

/-- Claim C6, counterexample: generate_map called with three markers whose
latitude mean is 2 and longitude mean is 20, but with center (0, 0) and zoom
25, returns center_lat 0 — not the markers' mean — and echoes zoom 25, which
is outside the 1-20 range. -/
theorem C6_counterexample :
    retField (retField (generate_map [] 0 0 25 (some markers3) "Map").1
        "center") "lat" = .vf 0
  ∧ ((1 : ℚ) + 2 + 3) / 3 = 2
  ∧ Val.vf 0 ≠ Val.vf 2
  ∧ retField (generate_map [] 0 0 25 (some markers3) "Map").1 "zoom" = .vi 25
  ∧ ¬((1 : Int) ≤ 25 ∧ (25 : Int) ≤ 20) := by
  refine ⟨rfl, by norm_num, ?_, rfl, by decide⟩
  intro h
  injection h with h'
  exact absurd h' (by norm_num)

/-- Claim C6 (amended): generate_map performs no mean computation and no zoom
range check — for every invocation it reports success and simply echoes the
caller-supplied center_lat/center_lng as the result's center and the
caller-supplied zoom as the result's zoom (averaging marker coordinates is
delegated to the calling stage's instruction text, not enforced by the
tool). -/
theorem C6_amended (st : SharedState) (center_lat center_lng : ℚ) (zoom : Int)
    (markers : Option (List (List (String × Val)))) (title : String) :
    retField (generate_map st center_lat center_lng zoom markers title).1
        "center"
      = .obj [("lat", .vf center_lat), ("lng", .vf center_lng)]
  ∧ retField (generate_map st center_lat center_lng zoom markers title).1
        "zoom" = .vi zoom
  ∧ retStatus (generate_map st center_lat center_lng zoom markers title).1
      = .vs "success" :=
  ⟨rfl, rfl, rfl⟩

/-- Claim C7, counterexample: on an HTTP 403 from the geocoding provider, the
returned message embeds str(e) verbatim; the requests exception text contains
the full request URL, whose query string carries the configured API key — so
the displayed message contains a provider credential. -/
theorem C7_counterexample :
    retMessage (geocode_address [] "Miami" (some leakedApiKey)
        (Except.error leakedExn)).1
      = "Failed to geocode address: 403 Client Error: Forbidden for url: https://maps.googleapis.com/maps/api/geocode/json?address=Miami&key="
        ++ leakedApiKey
  ∧ retStatus (geocode_address [] "Miami" (some leakedApiKey)
        (Except.error leakedExn)).1 = .vs "error" :=
  ⟨rfl, rfl⟩

/-- Claim C7 (amended): on any provider failure the adapters return a tagged
error value — never propagating the exception — whose human-readable message
is the fixed "Failed to ..." text followed by str(e) verbatim; no credential
scrubbing is applied to that text. -/
theorem C7_amended (st : SharedState) (latitude longitude : ℚ)
    (period : String) (forecastProvider : String → Except String NwsForecastProps)
    (now : String) (address : String) (apiKey : Option String) (e : String) :
    get_nws_forecast st latitude longitude period
        (fun _ => Except.error e) forecastProvider now
      = (errRet ("Failed to get forecast: " ++ e), st)
  ∧ (truthyOptS apiKey = true →
       geocode_address st address apiKey (Except.error e)
         = (errRet ("Failed to geocode address: " ++ e), st)) := by
  refine ⟨rfl, fun h => ?_⟩
  simp [geocode_address, h]

/-- Claim C7 witness: the amended theorem applied at a configured API key. -/
theorem C7_witness :
    truthyOptS (some "k") = true
  ∧ geocode_address [] "Miami" (some "k") (Except.error "boom")
      = (errRet ("Failed to geocode address: " ++ "boom"), []) :=
  ⟨rfl, (C7_amended [] 0 0 "7day" (fun _ => Except.error "boom") "t" "Miami"
      (some "k") "boom").2 rfl⟩

/-- Claim C10: when latitude or longitude is None or 0.0, get_nws_alerts does
not use the point-based query — the URL is the area query chosen by the state
argument when that is truthy, and the nationwide active-alerts query
otherwise. -/
theorem C10_url_selection (state : Option String)
    (latitude longitude : Option ℚ)
    (h : latitude = none ∨ latitude = some 0 ∨ longitude = none
         ∨ longitude = some 0) :
    alertsUrl state latitude longitude
      = (if truthyOptS state then
           NWS_API_BASE ++ "/alerts/active?area=" ++ state.getD ""
         else NWS_API_BASE ++ "/alerts/active") := by
  have hf : (truthyOptQ latitude && truthyOptQ longitude) = false := by
    rcases h with h | h | h | h <;> subst h <;> simp [truthyOptQ]
  simp [alertsUrl, hf]

/-- Claim C10 witness: latitude 0.0 with a state code selects the area
query. -/
theorem C10_witness :
    (some (0 : ℚ) = none ∨ some (0 : ℚ) = some 0 ∨ some (5 : ℚ) = none
      ∨ some (5 : ℚ) = some 0)
  ∧ alertsUrl (some "FL") (some 0) (some 5)
      = (if truthyOptS (some "FL") then
           NWS_API_BASE ++ "/alerts/active?area=" ++ (some "FL").getD ""
         else NWS_API_BASE ++ "/alerts/active") :=
  ⟨Or.inr (Or.inl rfl),
   C10_url_selection (some "FL") (some 0) (some 5) (Or.inr (Or.inl rfl))⟩

/-- Claim C8: calling the same adapter twice with identical arguments (and
the same deterministic provider, the timestamps being free to differ)
accumulates nothing in SharedState — each successful call assigns the
adapter's fixed state key ("alerts" resp. "forecast_data"), the second call
overwrites it, and the key set after two calls equals the key set after
one. -/
theorem C8_idempotent_keys (st : SharedState) (state : Option String)
    (latitude longitude : Option ℚ) (severity : Option String)
    (provider : String → Except String AlertsResponse) (now1 now2 : String)
    (flat flng : ℚ) (period : String)
    (pointsProvider : String → Except String NwsPointsProps)
    (forecastProvider : String → Except String NwsForecastProps) :
    stateKeys (get_nws_alerts
        (get_nws_alerts st state latitude longitude severity provider now1).2
        state latitude longitude severity provider now2).2
      = stateKeys (get_nws_alerts st state latitude longitude severity
          provider now1).2
  ∧ stateKeys (get_nws_forecast
        (get_nws_forecast st flat flng period pointsProvider forecastProvider
          now1).2
        flat flng period pointsProvider forecastProvider now2).2
      = stateKeys (get_nws_forecast st flat flng period pointsProvider
          forecastProvider now1).2 := by
  constructor
  · cases hp : provider (alertsUrl state latitude longitude) with
    | error e => simp [get_nws_alerts, hp]
    | ok resp => simp [get_nws_alerts, hp, stateKeys_stateSet_twice]
  · cases hp : pointsProvider (NWS_API_BASE ++ "/points/" ++ coordStr flat flng) with
    | error e => simp [get_nws_forecast, hp]
    | ok pts =>
        by_cases hper : period = "hourly"
        · subst hper
          cases hu : pts.forecastHourly with
          | none => simp [get_nws_forecast, hp, hu]
          | some url =>
              cases hf : forecastProvider url with
              | error e => simp [get_nws_forecast, hp, hu, hf]
              | ok fc =>
                  simp [get_nws_forecast, hp, hu, hf, stateKeys_stateSet_twice]
        · cases hu : pts.forecast with
          | none => simp [get_nws_forecast, hp, hper, hu]
          | some url =>
              cases hf : forecastProvider url with
              | error e => simp [get_nws_forecast, hp, hper, hu, hf]
              | ok fc =>
                  simp [get_nws_forecast, hp, hper, hu, hf,
                        stateKeys_stateSet_twice]

/-- Claim C9: the adapters are atomic on failure — whenever geocode_address
or get_nws_forecast returns a tagged error (missing API key, provider
failure, non-OK provider status, empty result list, or any exception), the
returned SharedState is exactly the input state; the adapter-specific key is
assigned only on the success path. -/
theorem C9_error_atomic (st : SharedState) (address : String)
    (apiKey : Option String) (provider : Except String GeoResponse)
    (latitude longitude : ℚ) (period : String)
    (pointsProvider : String → Except String NwsPointsProps)
    (forecastProvider : String → Except String NwsForecastProps)
    (now : String) :
    (retStatus (geocode_address st address apiKey provider).1 = .vs "error" →
       (geocode_address st address apiKey provider).2 = st)
  ∧ (retStatus (get_nws_forecast st latitude longitude period pointsProvider
        forecastProvider now).1 = .vs "error" →
       (get_nws_forecast st latitude longitude period pointsProvider
        forecastProvider now).2 = st) := by
  constructor
  · intro h
    by_cases hk : truthyOptS apiKey = true
    · cases provider with
      | error e => simp [geocode_address, hk]
      | ok data =>
          by_cases hs : data.status = "OK"
          · cases hr : data.results with
            | nil => simp [geocode_address, hk, hs, hr]
            | cons r rs =>
                exfalso
                simp [geocode_address, hk, hs, hr, retStatus, dGet,
                      objLookup] at h
          · simp [geocode_address, hk, hs]
    · simp [geocode_address, Bool.not_eq_true _ ▸ hk,
            eq_false_of_ne_true hk]
  · intro h
    cases hp : pointsProvider (NWS_API_BASE ++ "/points/" ++ coordStr latitude longitude) with
    | error e => simp [get_nws_forecast, hp]
    | ok pts =>
        by_cases hper : period = "hourly"
        · subst hper
          cases hu : pts.forecastHourly with
          | none => simp [get_nws_forecast, hp, hu]
          | some url =>
              cases hf : forecastProvider url with
              | error e => simp [get_nws_forecast, hp, hu, hf]
              | ok fc =>
                  exfalso
                  simp [get_nws_forecast, hp, hu, hf, retStatus, dGet,
                        objLookup] at h
        · cases hu : pts.forecast with
          | none => simp [get_nws_forecast, hp, hper, hu]
          | some url =>
              cases hf : forecastProvider url with
              | error e => simp [get_nws_forecast, hp, hper, hu, hf]
              | ok fc =>
                  exfalso
                  simp [get_nws_forecast, hp, hper, hu, hf, retStatus, dGet,
                        objLookup] at h

/-- Claim C9 witness: the theorem applied at a missing API key, a concrete
error outcome for the forecast, and the empty starting state. -/
theorem C9_witness :
    retStatus (geocode_address [] "A" none (Except.error "x")).1 = .vs "error"
  ∧ (geocode_address [] "A" none (Except.error "x")).2 = []
  ∧ retStatus (get_nws_forecast [] 0 0 "7day" (fun _ => Except.error "x")
      (fun _ => Except.error "x") "t").1 = .vs "error"
  ∧ (get_nws_forecast [] 0 0 "7day" (fun _ => Except.error "x")
      (fun _ => Except.error "x") "t").2 = [] :=
  ⟨rfl,
   (C9_error_atomic [] "A" none (Except.error "x") 0 0 "7day"
      (fun _ => Except.error "x") (fun _ => Except.error "x") "t").1 rfl,
   rfl,
   (C9_error_atomic [] "A" none (Except.error "x") 0 0 "7day"
      (fun _ => Except.error "x") (fun _ => Except.error "x") "t").2 rfl⟩

/-- Running an initial segment that succeeds, then the remaining stages,
composes: the traces concatenate and the final outcome is that of the
remaining stages started from the segment's final state. -/
theorem runStagesAux_append_ok (task : StageTask) (pre rest : List StageDef)
    (st0 st : SharedState) (tr : List String)
    (h : runStagesAux task pre st0 = (tr, .ok st)) :
    runStagesAux task (pre ++ rest) st0
      = (tr ++ (runStagesAux task rest st).1, (runStagesAux task rest st).2) := by
  induction pre generalizing st0 tr with
  | nil =>
      injection h with h1 h2
      subst h1
      injection h2 with h3
      subst h3
      simp [runStagesAux]
  | cons s pre ih =>
      rcases hts : task s st0 with ⟨st1, c⟩
      cases c with
      | none =>
          rw [runStagesAux, hts] at h
          simp at h
      | some c =>
          by_cases hok : stageSchemaOk s c = true
          · rw [runStagesAux, hts] at h
            simp only [hok, if_true] at h
            injection h with h1 h2
            have h' : runStagesAux task pre
                (match s.outputKey with
                 | some k => stateSet st1 k c
                 | none => st1)
              = ((runStagesAux task pre
                   (match s.outputKey with
                    | some k => stateSet st1 k c
                    | none => st1)).1, Except.ok st) := by
              rw [← h2]
            rw [List.cons_append, runStagesAux, hts]
            simp only [hok, if_true]
            rw [ih _ _ h']
            subst h1
            simp
          · rw [runStagesAux, hts] at h
            simp only [hok] at h
            simp at h

/-- Claim C2 (spec-modelled executor): if, after a successfully completed
initial segment of a pipeline run, a stage's candidate output fails
validation against its declared output schema, run_pipeline returns a
SchemaViolationError result and the invocation trace ends at the failing
stage — no stage after it is invoked and no partial SharedState is presented
as success. -/
theorem C2_schema_fail_fast (task : StageTask) (pre : List StageDef)
    (s : StageDef) (rest : List StageDef) (input : Val) (st st1 : SharedState)
    (tr : List String) (c : Val)
    (hpre : runStagesAux task pre (stateSet [] "input" input) = (tr, .ok st))
    (htask : task s st = (st1, some c))
    (hbad : stageSchemaOk s c = false) :
    run_pipeline task (pre ++ s :: rest) input
      = (tr ++ [s.name],
         PipeResult.error "SchemaViolationError"
           ("stage " ++ s.name ++ " output failed schema validation")) := by
  have hrun : runStagesAux task (pre ++ s :: rest) (stateSet [] "input" input)
      = (tr ++ [s.name],
         .error ("SchemaViolationError",
                 "stage " ++ s.name ++ " output failed schema validation")) := by
    rw [runStagesAux_append_ok task pre (s :: rest) _ st tr hpre]
    rw [runStagesAux, htask]
    simp [hbad]
  rw [run_pipeline, hrun]

/-- Claim C2 witness: the forecast pipeline with a task whose formatter
candidate "x" violates ForecastSummary; the first two stages run, the
formatter fails validation, the result is a SchemaViolationError and the
trace stops at the formatter. -/
theorem C2_witness :
    runStagesAux (constTask (.vs "x")) [geocoding_agent, forecast_retriever]
        (stateSet [] "input" (.vs "forecast for Miami, FL"))
      = (["geocoding_agent", "forecast_retriever"],
         .ok [("input", .vs "forecast for Miami, FL"),
              ("geocode_result", .vs "x"), ("forecast_data", .vs "x")])
  ∧ constTask (.vs "x") forecast_formatter
        [("input", .vs "forecast for Miami, FL"),
         ("geocode_result", .vs "x"), ("forecast_data", .vs "x")]
      = ([("input", .vs "forecast for Miami, FL"),
          ("geocode_result", .vs "x"), ("forecast_data", .vs "x")],
         some (.vs "x"))
  ∧ stageSchemaOk forecast_formatter (.vs "x") = false
  ∧ run_pipeline (constTask (.vs "x")) forecast_workflow
        (.vs "forecast for Miami, FL")
      = (["geocoding_agent", "forecast_retriever"] ++ ["forecast_formatter"],
         PipeResult.error "SchemaViolationError"
           ("stage " ++ "forecast_formatter"
            ++ " output failed schema validation")) :=
  ⟨rfl, rfl, rfl,
   C2_schema_fail_fast (constTask (.vs "x"))
     [geocoding_agent, forecast_retriever] forecast_formatter []
     (.vs "forecast for Miami, FL")
     [("input", .vs "forecast for Miami, FL"),
      ("geocode_result", .vs "x"), ("forecast_data", .vs "x")]
     [("input", .vs "forecast for Miami, FL"),
      ("geocode_result", .vs "x"), ("forecast_data", .vs "x")]
     ["geocoding_agent", "forecast_retriever"] (.vs "x") rfl rfl rfl⟩

/-- Claim C3 (spec-modelled executor): in every run of every pipeline the
invocation trace is an initial segment of the declared stage order — stages
execute in declaration order, none is skipped before a later one runs, and
none re-executes after completing within the run (the executor is a single
sequential recursion, so stages of one run also never overlap). -/
theorem C3_declaration_order (task : StageTask) (stages : List StageDef)
    (st : SharedState) (input : Val) :
    (∃ n, (runStagesAux task stages st).1 = (stages.map StageDef.name).take n)
  ∧ (∃ n, (run_pipeline task stages input).1
        = (stages.map StageDef.name).take n) := by
  have main : ∀ (l : List StageDef) (s0 : SharedState),
      ∃ n, (runStagesAux task l s0).1 = (l.map StageDef.name).take n := by
    intro l
    induction l with
    | nil => exact fun _ => ⟨0, rfl⟩
    | cons s rest ih =>
        intro s0
        rcases hts : task s s0 with ⟨st1, c⟩
        cases c with
        | none => exact ⟨1, by simp [runStagesAux, hts]⟩
        | some c =>
            by_cases hok : stageSchemaOk s c = true
            · obtain ⟨n, hn⟩ := ih
                (match s.outputKey with
                 | some k => stateSet st1 k c
                 | none => st1)
              exact ⟨n + 1, by simp [runStagesAux, hts, hok, hn]⟩
            · exact ⟨1, by simp [runStagesAux, hts, hok]⟩
  refine ⟨main stages st, ?_⟩
  obtain ⟨n, hn⟩ := main stages (stateSet [] "input" input)
  refine ⟨n, ?_⟩
  rw [run_pipeline]
  rcases hr : runStagesAux task stages (stateSet [] "input" input) with ⟨tr, res⟩
  rw [hr] at hn
  cases res <;> simpa using hn

/-- Claim C4, counterexample: evacuation_coordinator_agent declares no
output_key, so in a hurricane-pipeline run in which both stages produce
schema-conformant outputs and the run succeeds, the coordinator's result is
written nowhere in SharedState (the final state holds only the input and the
first stage's output) and the pipeline's overall result carries no value
under a final-stage output_key. -/
theorem C4_counterexample :
    evacuation_coordinator_agent.outputKey = none
  ∧ run_pipeline hurricaneTask HurricaneSimulationAgent (.vs "image")
      = (["hurricane_image_analysis_agent", "evacuation_coordinator_agent"],
         PipeResult.success none
           [("input", .vs "image"), ("hurricane_data", hurricaneSample)]) :=
  ⟨rfl, rfl⟩

/-- Claim C4 (amended, spec-modelled executor): a stage that declares an
output_key writes, on success, its schema-validated result into SharedState
under that key, where the remaining stages observe it; the pipeline's
overall result is the value under the final stage's output_key when the
final stage declares one — but a stage may declare no output_key (the
hurricane pipeline's evacuation coordinator), in which case its result is
not stored. -/
theorem C4_output_key_write (task : StageTask) (s : StageDef)
    (rest : List StageDef) (st st1 : SharedState) (c : Val) (k : String)
    (htask : task s st = (st1, some c)) (hkey : s.outputKey = some k)
    (hok : stageSchemaOk s c = true) :
    runStagesAux task (s :: rest) st
      = (s.name :: (runStagesAux task rest (stateSet st1 k c)).1,
         (runStagesAux task rest (stateSet st1 k c)).2)
  ∧ stateGet (stateSet st1 k c) k = some c := by
  constructor
  · rw [runStagesAux, htask]
    simp [hok, hkey]
  · exact stateGet_stateSet st1 k c

/-- Claim C4 witness: the geocoding stage with candidate "x" writes it under
"geocode_result". -/
theorem C4_witness :
    constTask (.vs "x") geocoding_agent [] = ([], some (.vs "x"))
  ∧ geocoding_agent.outputKey = some "geocode_result"
  ∧ stageSchemaOk geocoding_agent (.vs "x") = true
  ∧ (runStagesAux (constTask (.vs "x")) [geocoding_agent] []
       = ("geocoding_agent"
            :: (runStagesAux (constTask (.vs "x")) []
                 (stateSet [] "geocode_result" (.vs "x"))).1,
          (runStagesAux (constTask (.vs "x")) []
            (stateSet [] "geocode_result" (.vs "x"))).2)
     ∧ stateGet (stateSet [] "geocode_result" (.vs "x")) "geocode_result"
         = some (.vs "x")) :=
  ⟨rfl, rfl, rfl,
   C4_output_key_write (constTask (.vs "x")) geocoding_agent [] [] [] (.vs "x")
     "geocode_result" rfl rfl rfl⟩

end Weather
